import Mathlib

/-!
Verification of the netwiss_fastapi backend services against their
natural-language specification.  The Python services are shallowly embedded
as pure Lean functions; effectful collaborators (file store, web fetcher,
chat-completion backends) are parameters, and Python exceptions are
modelled with `Except String`.
-/

namespace Netwiss

/-- Python whitespace characters relevant to `str.strip()` (ASCII range). -/
def pyIsSpace (c : Char) : Bool :=
  c = ' ' || c = '\t' || c = '\n' || c = '\r' || c = '\x0b' || c = '\x0c'

/-- Models the Python truthiness test `not s.strip()`: true iff every
character of `s` is whitespace (in particular for the empty string). -/
def isBlank (s : String) : Bool :=
  s.toList.all pyIsSpace

/-- Models Python `s.strip()`: remove leading and trailing whitespace. -/
def pyStrip (s : String) : String :=
  String.mk (((s.toList.dropWhile pyIsSpace).reverse.dropWhile pyIsSpace).reverse)

/-- A LangChain chat message (`SystemMessage` / `HumanMessage`). -/
inductive ChatMessage where
  | system (content : String)
  | human (content : String)
deriving DecidableEq

/-- A chat-completion backend: models `self.llm.invoke(messages)` followed by
reading `response.content`.  `.error` models any raised exception, including
the missing-credential `ValueError` from lazy client initialization. -/
def Backend : Type := List ChatMessage → Except String String

/-! ## SummarizationService (`summarization_service.py`) -/

/-- From `SummarizationService._create_summarization_system_prompt`. -/
def create_summarization_system_prompt (content_type : String) (max_length : Int) : String :=
  let content_type_text :=
    if content_type = "pdf" then "PDF-Dokument"
    else if content_type = "web" then "Webseite"
    else if content_type = "text" then "Text"
    else "Dokument"
  let prompt :=
    "Du bist ein Experte für die Analyse und Zusammenfassung von Inhalten für Projektanträge.\n\n"
    ++ "Deine Aufgabe ist es, aus dem bereitgestellten " ++ content_type_text
    ++ " die relevanten Informationen zu extrahieren, die zur Beantwortung der gegebenen Leitfragen benötigt werden.\n\n"
    ++ "Richtlinien für die Zusammenfassung:\n"
    ++ "- Fokussiere dich ausschließlich auf Informationen, die relevant für die Leitfragen sind\n"
    ++ "- Strukturiere die Zusammenfassung logisch und kohärent\n"
    ++ "- Verwende eine professionelle, sachliche Sprache\n"
    ++ "- Extrahiere konkrete Daten, Zahlen und Fakten, wo verfügbar\n"
    ++ "- Ignoriere irrelevante Details oder Marketing-Sprache\n"
    ++ "- Falls das Dokument nicht relevant für die Fragen ist, sage das deutlich\n\n"
    ++ "Ziel: Eine präzise, fokussierte Zusammenfassung, die als Grundlage für die Antragserstellung dient."
  if 0 < max_length then
    prompt ++ "\n- Halte die Zusammenfassung unter " ++ toString max_length ++ " Zeichen"
  else
    prompt

/-- From `SummarizationService._create_summarization_human_prompt`. -/
def create_summarization_human_prompt (content : String) (questions : String) : String :=
  "Leitfragen, die beantwortet werden sollen:\n" ++ questions
  ++ "\n\nZu analysierender Inhalt:\n" ++ content
  ++ "\n\nBitte erstelle eine fokussierte Zusammenfassung des Inhalts, die speziell auf die Beantwortung der oben genannten Leitfragen ausgerichtet ist. Extrahiere nur die relevanten Informationen und strukturiere sie so, dass sie für die Erstellung eines Projektantrags hilfreich sind."

/-- From `SummarizationService._build_summarization_messages`. -/
def build_summarization_messages (content questions content_type : String)
    (max_length : Int) : List ChatMessage :=
  [ChatMessage.system (create_summarization_system_prompt content_type max_length),
   ChatMessage.human (create_summarization_human_prompt content questions)]

/-- The truncation cap from `summarize_for_questions`
(`max_content_length = 8000`). -/
def max_content_length : Nat := 8000

/-- The content truncation of `summarize_for_questions` (the reassignment
of the local `content` when it exceeds `max_content_length`): keep the
first 8000 characters and append the ellipsis marker. -/
def truncate_content (content : String) : String :=
  if max_content_length < content.length then
    content.take max_content_length ++ "..."
  else content

/-- The `try:` block of `summarize_for_questions`: sentinel for blank
content without touching the backend, otherwise truncate, build the
messages and invoke the backend (which can raise). -/
def summarize_try_block (backend : Backend) (content questions content_type : String)
    (max_summary_length : Int) : Except String String :=
  if isBlank content then
    Except.ok "Kein verwertbarer Inhalt in der Anlage gefunden."
  else
    match backend (build_summarization_messages (truncate_content content) questions
        content_type max_summary_length) with
    | Except.ok response => Except.ok (pyStrip response)
    | Except.error e => Except.error e

/-- From `SummarizationService.summarize_for_questions`.  The whole Python
method body sits inside `try: ... except: return diagnostic`, so the
embedding runs the try-block as an `Except` computation and converts any
error into the diagnostic return value.  The backend parameter models
`self.llm.invoke` (its `.error` also covers the missing `OPENAI_API_KEY`
raise on lazy initialization). -/
def summarize_for_questions (backend : Backend) (content questions content_type : String)
    (max_summary_length : Int) : Except String String :=
  match summarize_try_block backend content questions content_type max_summary_length with
  | Except.ok s => Except.ok s
  | Except.error e => Except.ok ("Fehler bei der Zusammenfassung: " ++ e)

/-! ## LLMService (`llm_service.py`) -/

/-- From `LLMService.SUPPORTED_MODELS`: the static model catalog mapping
model id to provider family. -/
def SUPPORTED_MODELS : List (String × String) :=
  [("gpt-4o-mini", "openai"),
   ("gpt-5-mini", "openai"),
   ("gpt-5", "openai"),
   ("claude-sonnet-4-20250514", "anthropic"),
   ("claude-3-7-sonnet-latest", "anthropic")]

/-- Catalog lookup: `model_name in SUPPORTED_MODELS` /
`SUPPORTED_MODELS[model_name]`. -/
def lookupProvider (model_name : String) : Option String :=
  (SUPPORTED_MODELS.find? (fun kv => kv.1 == model_name)).map (fun kv => kv.2)

/-- The `ValueError` message raised by `LLMService.__init__` for an unknown
model id (Python renders the key list as `['a', 'b', ...]`). -/
def unsupportedModelMessage (model_name : String) : String :=
  "Unsupported model: " ++ model_name ++ ". Supported models: ['"
  ++ String.intercalate "', '" (SUPPORTED_MODELS.map (fun kv => kv.1)) ++ "']"

/-- The state built by `LLMService.__init__` after a successful catalog
check. -/
structure LLMService where
  model_name : String
  provider : String
deriving DecidableEq

/-- From `LLMService.__init__`: validate the model id against the catalog;
an unknown id raises `ValueError` before anything else happens. -/
def mkLLMService (model_name : String) : Except String LLMService :=
  match lookupProvider model_name with
  | none => Except.error (unsupportedModelMessage model_name)
  | some p => Except.ok { model_name := model_name, provider := p }

/-- From `LLMService._create_system_prompt`. -/
def create_system_prompt (max_length : Int) : String :=
  let base_prompt :=
    "Du bist ein Experte für die Erstellung von Projekt- und Förderanträgen für Wirtschaftsunternehmen. \n\n"
    ++ "Deine Aufgabe ist es, basierend auf den gegebenen Leitfragen, dem Benutzerinput und den Best-Practice-Beispielen einen professionellen und strukturierten Abschnitt zu verfassen.\n\n"
    ++ "Beachte dabei:\n"
    ++ "- Verwende eine professionelle, aber zugängliche Sprache\n"
    ++ "- Strukturiere den Text logisch und kohärent\n"
    ++ "- Nutze die Best-Practice-Beispiele als Orientierung für Stil und Tiefe\n"
    ++ "- Gehe spezifisch auf den Benutzerinput ein\n"
    ++ "- Stelle sicher, dass alle wichtigen Aspekte der Leitfragen abgedeckt werden"
  if 0 < max_length then
    base_prompt ++ "\n- Halte den Text unter " ++ toString max_length ++ " Zeichen"
  else
    base_prompt

/-- The numbered `"Beispiel i:"` join used by both human-prompt builders. -/
def examples_text (best_practice_examples : List String) : String :=
  String.intercalate "\n\n"
    (best_practice_examples.enum.map
      (fun ie => "Beispiel " ++ toString (ie.1 + 1) ++ ":\n" ++ ie.2))

/-- The numbered `"Anhangszusammenfassung i:"` join from
`_create_human_prompt_with_attachments`. -/
def attachments_text (attachment_summaries : List String) : String :=
  String.intercalate "\n\n"
    (attachment_summaries.enum.map
      (fun ie => "Anhangszusammenfassung " ++ toString (ie.1 + 1) ++ ":\n" ++ ie.2))

/-- From `LLMService._create_human_prompt`. -/
def create_human_prompt (title questions user_input : String)
    (best_practice_examples : List String) : String :=
  "Abschnittstitel: " ++ title
  ++ "\n\nLeitfragen:\n" ++ questions
  ++ "\n\nBenutzerinput:\n" ++ user_input
  ++ "\n\nBest-Practice-Beispiele:\n" ++ examples_text best_practice_examples
  ++ "\n\nBitte erstelle basierend auf diesen Informationen einen professionellen Abschnitt für einen Projektantrag. Wiederhole den Abschnittstitel nicht im Text, sondern beginne direkt mit dem Inhalt."

/-- From `LLMService._create_human_prompt_with_attachments`. -/
def create_human_prompt_with_attachments (title questions user_input : String)
    (best_practice_examples attachment_summaries : List String) : String :=
  "Abschnittstitel: " ++ title
  ++ "\n\nLeitfragen:\n" ++ questions
  ++ "\n\nBenutzerinput:\n" ++ user_input
  ++ "\n\nZusätzliche Details:\n" ++ attachments_text attachment_summaries
  ++ "\n\nBest-Practice-Beispiele:\n" ++ examples_text best_practice_examples
  ++ "\n\n\nBitte erstelle basierend auf diesen Informationen einen professionellen Abschnitt für einen Projektantrag. Wiederhole den Abschnittstitel nicht im Text, sondern beginne direkt mit dem Inhalt."

/-- From `LLMService._build_messages`. -/
def build_messages (title questions user_input : String)
    (best_practice_examples : List String) (max_length : Int) : List ChatMessage :=
  [ChatMessage.system (create_system_prompt max_length),
   ChatMessage.human (create_human_prompt title questions user_input best_practice_examples)]

/-- From `LLMService._build_messages_with_attachments`. -/
def build_messages_with_attachments (title questions user_input : String)
    (best_practice_examples attachment_summaries : List String)
    (max_length : Int) : List ChatMessage :=
  [ChatMessage.system (create_system_prompt max_length),
   ChatMessage.human (create_human_prompt_with_attachments title questions user_input
      best_practice_examples attachment_summaries)]

/-- From `LLMService.generate_section_content`: invoke the backend and strip
the result; any exception is re-raised as `RuntimeError("Failed to generate
content: ...")`. -/
def generate_section_content (backend : Backend) (title questions user_input : String)
    (best_practice_examples : List String) (max_length : Int) : Except String String :=
  match backend (build_messages title questions user_input best_practice_examples max_length) with
  | Except.ok response => Except.ok (pyStrip response)
  | Except.error e => Except.error ("Failed to generate content: " ++ e)

/-- From `LLMService.generate_section_content_with_attachments`. -/
def generate_section_content_with_attachments (backend : Backend)
    (title questions user_input : String)
    (best_practice_examples attachment_summaries : List String)
    (max_length : Int) : Except String String :=
  match backend (build_messages_with_attachments title questions user_input
      best_practice_examples attachment_summaries max_length) with
  | Except.ok response => Except.ok (pyStrip response)
  | Except.error e => Except.error ("Failed to generate content: " ++ e)

/-! ## Data models (`models/proposal.py`) -/

/-- From `models/proposal.py`, class `Section`.  The optional attachment
lists default to `[]`; the service normalizes `None` to `[]` via
`section.attached_files or []`, so `List String` is the faithful carrier. -/
structure Section where
  title : String
  questions : String
  best_practice_beispiele : List String
  user_input : String
  max_section_length : Int
  attached_files : List String
  attached_urls : List String
deriving DecidableEq

/-- From `models/proposal.py`, class `ProposalRequest`.  `sections` is a
Python `dict`, which preserves insertion order; it is embedded as an
ordered association list. -/
structure ProposalRequest where
  sections : List (String × Section)
  model : String
deriving DecidableEq

/-- From `models/proposal.py`, class `SectionResponse`. -/
structure SectionResponse where
  title : String
  generated_content : String
  user_input : String
  status : String
deriving DecidableEq

/-- From `models/proposal.py`, class `ProposalResponse`. -/
structure ProposalResponse where
  sections : List (String × SectionResponse)
  status : String
deriving DecidableEq

/-! ## Effect model for the collaborators used by the proposal service -/

/-- Outcome of `FileService.get_file_content(file_id)`: the call can raise,
or return `None`, or return extracted text. -/
inductive FileReadResult where
  | raises (msg : String)
  | ok (content : Option String)
deriving DecidableEq

/-- The dictionary returned by
`WebScrapingService.extract_content_from_url` (only the fields the proposal
service reads). -/
structure UrlResult where
  status : String
  content : String
deriving DecidableEq

/-- Outcome of `WebScrapingService.extract_content_from_url(url)`: the call
can raise, or return a result dictionary. -/
inductive UrlFetchResult where
  | raises (msg : String)
  | ok (r : UrlResult)
deriving DecidableEq

/-- The effectful collaborators of `ProposalGenerationService`, fixed for
one request: file store reads, URL fetches, the summarization backend and
the generation backend (`llm_service.llm.invoke`). -/
structure Env where
  readFile : String → FileReadResult
  fetchUrl : String → UrlFetchResult
  sumBackend : Backend
  genBackend : Backend

/-! ## ProposalGenerationService (`proposal_service.py`) -/

/-- One iteration of the file loop in
`ProposalGenerationService._process_attachments`: read the file content
(`None`/empty content is skipped with only a warning), summarize non-empty
content, and convert any raised exception into the inline error-marker
summary. -/
def fileStep (env : Env) (questions : String) (summaries : List String)
    (file_id : String) : List String :=
  match env.readFile file_id with
  | FileReadResult.raises e => summaries ++ ["Fehler beim Verarbeiten der Datei: " ++ e]
  | FileReadResult.ok none => summaries
  | FileReadResult.ok (some file_content) =>
      if file_content = "" then summaries
      else
        match summarize_for_questions env.sumBackend file_content questions "pdf" 1000 with
        | Except.ok summary => summaries ++ [summary]
        | Except.error e => summaries ++ ["Fehler beim Verarbeiten der Datei: " ++ e]

/-- One iteration of the URL loop in `_process_attachments`: fetch the URL,
skip results whose status is not `"success"` or whose content is empty,
summarize otherwise, and convert any raised exception into the inline
error-marker summary. -/
def urlStep (env : Env) (questions : String) (summaries : List String)
    (url : String) : List String :=
  match env.fetchUrl url with
  | UrlFetchResult.raises e => summaries ++ ["Fehler beim Verarbeiten der URL: " ++ e]
  | UrlFetchResult.ok r =>
      if r.status = "success" && r.content ≠ "" then
        match summarize_for_questions env.sumBackend r.content questions "web" 1000 with
        | Except.ok summary => summaries ++ [summary]
        | Except.error e => summaries ++ ["Fehler beim Verarbeiten der URL: " ++ e]
      else summaries

/-- From `ProposalGenerationService._process_attachments`: one `summaries`
list, appended to by the file loop and then by the URL loop. -/
def process_attachments (env : Env) (sec : Section) : List String :=
  sec.attached_urls.foldl (urlStep env sec.questions)
    (sec.attached_files.foldl (fileStep env sec.questions) [])

/-- The local `attachment_summaries` of `_process_section`: attachments are
enriched iff at least one file id or URL is present (an empty list never
triggers enrichment). -/
def section_attachment_summaries (env : Env) (sec : Section) : List String :=
  if sec.attached_files ≠ [] || sec.attached_urls ≠ [] then
    process_attachments env sec
  else []

/-- The local `generated_content` of `_process_section` (as the raising
computation): the attachment-aware generation call when at least one
summary was produced, the plain one otherwise. -/
def section_generated (env : Env) (sec : Section) : Except String String :=
  if section_attachment_summaries env sec ≠ [] then
    generate_section_content_with_attachments env.genBackend sec.title sec.questions
      sec.user_input sec.best_practice_beispiele (section_attachment_summaries env sec)
      sec.max_section_length
  else
    generate_section_content env.genBackend sec.title sec.questions sec.user_input
      sec.best_practice_beispiele sec.max_section_length

/-- From `ProposalGenerationService._process_section`: skip on blank user
input, otherwise enrich attachments and generate.  `.error` models an
exception escaping the method (only the generation calls can raise here). -/
def process_section (env : Env) (sec : Section) : Except String SectionResponse :=
  if isBlank sec.user_input then
    Except.ok
      { title := sec.title,
        generated_content := "Keine Eingabe vom Benutzer bereitgestellt.",
        user_input := sec.user_input,
        status := "skipped" }
  else
    match section_generated env sec with
    | Except.ok generated_content =>
        Except.ok
          { title := sec.title,
            generated_content := generated_content,
            user_input := sec.user_input,
            status := "success" }
    | Except.error e => Except.error e

/-- The `SectionResponse` built in the `except` branch of
`process_request`'s section loop. -/
def errorResponse (sec : Section) (e : String) : SectionResponse :=
  { title := sec.title,
    generated_content := "Fehler bei der Generierung: " ++ e,
    user_input := sec.user_input,
    status := "error" }

/-- One iteration of the section loop in
`ProposalGenerationService.process_request`: accumulate the processed
sections, and downgrade `overall_status` to `"partial_success"` exactly
when `_process_section` raised. -/
def sectionStep (env : Env)
    (acc : List (String × SectionResponse) × String)
    (kv : String × Section) : List (String × SectionResponse) × String :=
  match process_section env kv.2 with
  | Except.ok r => (acc.1 ++ [(kv.1, r)], acc.2)
  | Except.error e => (acc.1 ++ [(kv.1, errorResponse kv.2 e)], "partial_success")

/-- From `ProposalGenerationService.process_request`: construct the
`LLMService` for the requested model (an unknown id raises `ValueError`
before any section is touched), then run the section loop starting from
`overall_status = "success"`. -/
def process_request (env : Env) (request : ProposalRequest) : Except String ProposalResponse :=
  match mkLLMService request.model with
  | Except.error e => Except.error e
  | Except.ok _ =>
      Except.ok
        { sections := (request.sections.foldl (sectionStep env) ([], "success")).1,
          status := (request.sections.foldl (sectionStep env) ([], "success")).2 }

/-! ## MaintenanceService (`maintenance_service.py`) -/

/-- One entry observed by `os.listdir` during a sweep, together with the
facts the sweep reads about it: `os.path.isdir`, `os.stat` data
(`st_mtime` and `st_size`, modelled in whole seconds / bytes) and whether
the per-entry I/O (`os.stat` / `os.remove`) raises `OSError`. -/
structure DirEntry where
  name : String
  is_dir : Bool
  mtime : Int
  size : Int
  io_fails : Bool
deriving DecidableEq

/-- The statistics accumulated by `MaintenanceService.cleanup_old_files`. -/
structure CleanupStats where
  deleted_files : Nat
  errors : Nat
  total_size_freed : Int
deriving DecidableEq

/-- One iteration of the entry loop in `cleanup_old_files`: skip
directories; a raising `os.stat`/`os.remove` increments `errors` and moves
on; otherwise delete the entry exactly when `st_mtime < cutoff_time`. -/
def cleanupStep (cutoff_time : Int) (acc : CleanupStats) (e : DirEntry) : CleanupStats :=
  if e.is_dir then acc
  else if e.io_fails then { acc with errors := acc.errors + 1 }
  else if e.mtime < cutoff_time then
    { deleted_files := acc.deleted_files + 1,
      errors := acc.errors,
      total_size_freed := acc.total_size_freed + e.size }
  else acc

/-- From `MaintenanceService.cleanup_old_files`: zeroed statistics when the
upload directory does not exist; otherwise sweep the listed entries with
`cutoff_time = time.time() - retention_hours * 3600` (`now` is
`time.time()` in whole seconds). -/
def cleanup_old_files (dir_exists : Bool) (entries : List DirEntry)
    (now : Int) (file_retention_hours : Int) : CleanupStats :=
  if !dir_exists then { deleted_files := 0, errors := 0, total_size_freed := 0 }
  else
    let cutoff_time := now - file_retention_hours * 3600
    entries.foldl (cleanupStep cutoff_time) { deleted_files := 0, errors := 0, total_size_freed := 0 }

/-- The in-memory maintenance configuration
(`file_retention_hours` / `cleanup_interval_hours` on `MaintenanceService`;
both set from `int`-typed inputs). -/
structure MaintenanceConfig where
  file_retention_hours : Int
  cleanup_interval_hours : Int
deriving DecidableEq

/-- From `MaintenanceService.configure_retention`: always overwrite the
retention, and overwrite the interval only when one is supplied. -/
def configure_retention (st : MaintenanceConfig) (retention_hours : Int)
    (cleanup_interval_hours : Option Int) : MaintenanceConfig :=
  { file_retention_hours := retention_hours,
    cleanup_interval_hours :=
      match cleanup_interval_hours with
      | some i => i
      | none => st.cleanup_interval_hours }

/-- Python `x or y` on an optional int (`retention_hours or
maintenance_service.file_retention_hours`): `None` and `0` are falsy. -/
def pyOrInt (x : Option Int) (y : Int) : Int :=
  match x with
  | none => y
  | some v => if v = 0 then y else v

/-- The router's bound check `retention_hours is not None and
retention_hours < 1`. -/
def retentionOutOfBounds (retention_hours : Option Int) : Bool :=
  match retention_hours with
  | some r => decide (r < 1)
  | none => false

/-- The router's bound check `cleanup_interval_hours is not None and
cleanup_interval_hours < 0.1` (the parameter is `int`-typed, compared
against the literal `0.1`). -/
def intervalOutOfBounds (cleanup_interval_hours : Option Int) : Bool :=
  match cleanup_interval_hours with
  | some i => decide ((i : ℚ) < 1 / 10)
  | none => false

/-- From `routers/maintenance.py`, `update_maintenance_config`: validate
both supplied bounds before calling `configure_retention`; `.error`
carries the HTTP 400 detail and leaves the configuration untouched. -/
def update_maintenance_config (st : MaintenanceConfig)
    (retention_hours cleanup_interval_hours : Option Int) :
    Except String MaintenanceConfig :=
  if retentionOutOfBounds retention_hours then
    Except.error "Retention hours must be at least 1"
  else if intervalOutOfBounds cleanup_interval_hours then
    Except.error "Cleanup interval must be at least 0.1 hours (6 minutes)"
  else
    Except.ok (configure_retention st
      (pyOrInt retention_hours st.file_retention_hours) cleanup_interval_hours)

/-! ## Per-item digest semantics and fold characterizations -/

/-- The digest produced for one attached file id, or `none` when the item
is omitted: the per-item semantics of one iteration of the file loop. -/
def fileDigest (env : Env) (questions : String) (file_id : String) : Option String :=
  match env.readFile file_id with
  | FileReadResult.raises e => some ("Fehler beim Verarbeiten der Datei: " ++ e)
  | FileReadResult.ok none => none
  | FileReadResult.ok (some file_content) =>
      if file_content = "" then none
      else
        match summarize_for_questions env.sumBackend file_content questions "pdf" 1000 with
        | Except.ok summary => some summary
        | Except.error e => some ("Fehler beim Verarbeiten der Datei: " ++ e)

/-- The digest produced for one attached URL, or `none` when the item is
omitted: the per-item semantics of one iteration of the URL loop. -/
def urlDigest (env : Env) (questions : String) (url : String) : Option String :=
  match env.fetchUrl url with
  | UrlFetchResult.raises e => some ("Fehler beim Verarbeiten der URL: " ++ e)
  | UrlFetchResult.ok r =>
      if r.status = "success" && r.content ≠ "" then
        match summarize_for_questions env.sumBackend r.content questions "web" 1000 with
        | Except.ok summary => some summary
        | Except.error e => some ("Fehler beim Verarbeiten der URL: " ++ e)
      else none

theorem fileStep_eq_toList (env : Env) (questions : String) (summaries : List String)
    (file_id : String) :
    fileStep env questions summaries file_id
      = summaries ++ (fileDigest env questions file_id).toList := by
  unfold fileStep fileDigest
  cases h : env.readFile file_id with
  | raises e => rfl
  | ok c =>
      cases c with
      | none => simp
      | some file_content =>
          by_cases hc : file_content = "" <;>
            simp only [hc, if_true, if_false, ite_true, ite_false] <;>
            first
              | simp
              | (cases hs : summarize_for_questions env.sumBackend file_content questions "pdf" 1000 <;> simp)

theorem urlStep_eq_toList (env : Env) (questions : String) (summaries : List String)
    (url : String) :
    urlStep env questions summaries url
      = summaries ++ (urlDigest env questions url).toList := by
  unfold urlStep urlDigest
  cases h : env.fetchUrl url with
  | raises e => rfl
  | ok r =>
      by_cases hst : r.status = "success"
      · by_cases hc : r.content = ""
        · simp [hst, hc]
        · cases hsum : summarize_for_questions env.sumBackend r.content questions "web" 1000 <;>
            simp [hst, hc, hsum]
      · simp [hst]

/-- Folding a step that appends an optional element is concatenation with
`filterMap`: the loop preserves input order and isolates items. -/
theorem foldl_append_toList {α γ : Type} (step : List γ → α → List γ) (d : α → Option γ)
    (hstep : ∀ acc x, step acc x = acc ++ (d x).toList) :
    ∀ (l : List α) (acc : List γ), l.foldl step acc = acc ++ l.filterMap d := by
  intro l
  induction l with
  | nil => intro acc; simp
  | cons a l ih =>
      intro acc
      rw [List.foldl_cons, ih, hstep]
      cases h : d a <;> simp [h]

/-- `_process_attachments` as a pure concatenation of per-item digests:
all file digests (in input order), then all URL digests (in input order). -/
theorem process_attachments_eq_filterMap (env : Env) (sec : Section) :
    process_attachments env sec
      = sec.attached_files.filterMap (fileDigest env sec.questions)
        ++ sec.attached_urls.filterMap (urlDigest env sec.questions) := by
  unfold process_attachments
  rw [foldl_append_toList (fileStep env sec.questions) (fileDigest env sec.questions)
        (fun acc x => fileStep_eq_toList env sec.questions acc x),
      foldl_append_toList (urlStep env sec.questions) (urlDigest env sec.questions)
        (fun acc x => urlStep_eq_toList env sec.questions acc x)]
  simp

/-- The `(key, SectionResult)` pair the section loop records for one
section, whether `_process_section` returned or raised. -/
def sectionOutcome (env : Env) (kv : String × Section) : String × SectionResponse :=
  match process_section env kv.2 with
  | Except.ok r => (kv.1, r)
  | Except.error e => (kv.1, errorResponse kv.2 e)

/-- Whether `_process_section` raises for this section (the `except`
branch of the section loop). -/
def sectionFails (env : Env) (kv : String × Section) : Bool :=
  match process_section env kv.2 with
  | Except.ok _ => false
  | Except.error _ => true

/-- Characterization of the section loop: it appends one outcome per
section in order, and the accumulated status drops to
`"partial_success"` exactly when some section raises. -/
theorem foldl_sectionStep (env : Env) :
    ∀ (secs : List (String × Section)) (acc : List (String × SectionResponse) × String),
      secs.foldl (sectionStep env) acc
        = (acc.1 ++ secs.map (sectionOutcome env),
           if secs.any (sectionFails env) then "partial_success" else acc.2) := by
  intro secs
  induction secs with
  | nil => intro acc; simp
  | cons kv secs ih =>
      intro acc
      rw [List.foldl_cons, ih]
      cases h : process_section env kv.2 with
      | ok r =>
          have hf : sectionFails env kv = false := by unfold sectionFails; rw [h]
          have ho : sectionOutcome env kv = (kv.1, r) := by unfold sectionOutcome; rw [h]
          have hs : sectionStep env acc kv = (acc.1 ++ [(kv.1, r)], acc.2) := by
            unfold sectionStep; rw [h]
          rw [hs]
          simp only [List.map_cons, ho, List.any_cons, hf, Bool.false_or,
            List.append_assoc, List.cons_append, List.nil_append]
      | error e =>
          have hf : sectionFails env kv = true := by unfold sectionFails; rw [h]
          have ho : sectionOutcome env kv = (kv.1, errorResponse kv.2 e) := by
            unfold sectionOutcome; rw [h]
          have hs : sectionStep env acc kv
              = (acc.1 ++ [(kv.1, errorResponse kv.2 e)], "partial_success") := by
            unfold sectionStep; rw [h]
          rw [hs]
          simp only [List.map_cons, ho, List.any_cons, hf, Bool.true_or,
            eq_self_iff_true, if_true, ite_self, List.append_assoc,
            List.cons_append, List.nil_append]

/-- `_process_section` only ever returns (without raising) a result with
status `"skipped"` or `"success"`. -/
theorem process_section_ok_status (env : Env) (sec : Section) (r : SectionResponse)
    (h : process_section env sec = Except.ok r) :
    r.status = "skipped" ∨ r.status = "success" := by
  unfold process_section at h
  by_cases hb : isBlank sec.user_input = true
  · rw [if_pos hb] at h
    left
    cases h
    rfl
  · rw [if_neg hb] at h
    cases hg : section_generated env sec with
    | ok g =>
        rw [hg] at h
        cases h
        right
        rfl
    | error e =>
        rw [hg] at h
        exact Except.noConfusion h

/-- The sweep's effective deletion predicate: a non-directory entry whose
per-entry I/O succeeds and whose age `now - mtime` strictly exceeds the
retention window in seconds. -/
def shouldDelete (now retention : Int) (e : DirEntry) : Bool :=
  !e.is_dir && !e.io_fails && decide (retention * 3600 < now - e.mtime)

/-- Characterization of the entry loop of `cleanup_old_files`. -/
theorem foldl_cleanupStep (cutoff : Int) :
    ∀ (l : List DirEntry) (acc : CleanupStats),
      l.foldl (cleanupStep cutoff) acc =
        { deleted_files := acc.deleted_files
            + (l.filter (fun e => !e.is_dir && !e.io_fails && decide (e.mtime < cutoff))).length,
          errors := acc.errors + (l.filter (fun e => !e.is_dir && e.io_fails)).length,
          total_size_freed := acc.total_size_freed
            + ((l.filter (fun e => !e.is_dir && !e.io_fails && decide (e.mtime < cutoff))).map
                DirEntry.size).sum } := by
  intro l
  induction l with
  | nil => intro acc; simp
  | cons e l ih =>
      intro acc
      rw [List.foldl_cons, ih]
      by_cases hd : e.is_dir = true
      · simp [cleanupStep, hd]
      · have hd' : e.is_dir = false := by
          cases hde : e.is_dir
          · rfl
          · exact absurd hde hd
        by_cases hio : e.io_fails = true
        · simp [cleanupStep, hd', hio]
          try omega
        · have hio' : e.io_fails = false := by
            cases hie : e.io_fails
            · rfl
            · exact absurd hie hio
          by_cases hm : e.mtime < cutoff
          · simp [cleanupStep, hd', hio', hm]
            try omega
          · simp [cleanupStep, hd', hio', hm]
            try omega

/-! ## Shared concrete values for witnesses and counterexamples -/

/-- A stub collaborator environment for concrete evaluations: no stored
file content, failing URL fetches, constant backends. -/
def stubEnv : Env :=
  { readFile := fun _ => FileReadResult.ok none,
    fetchUrl := fun _ => UrlFetchResult.ok { status := "error", content := "" },
    sumBackend := fun _ => Except.ok "Zusammenfassung",
    genBackend := fun _ => Except.ok "Text" }

/-- A section whose user input is empty. -/
def blankSection : Section :=
  { title := "Intro",
    questions := "Q1?",
    best_practice_beispiele := [],
    user_input := "",
    max_section_length := 0,
    attached_files := [],
    attached_urls := [] }

/-- A section with ordinary user input. -/
def plainSection : Section :=
  { title := "Intro",
    questions := "Q1?",
    best_practice_beispiele := [],
    user_input := "abc",
    max_section_length := 0,
    attached_files := [],
    attached_urls := [] }

/-! ## Claim C4 -/

/-- C4: for every section and collaborator behavior, the digest list
produced by attachment enrichment is all surviving file digests followed
by all surviving URL digests, each sublist in original input-index order
(`filterMap` preserves the order of the input lists). -/
theorem digest_order_files_before_urls (env : Env) (sec : Section) :
    process_attachments env sec
      = sec.attached_files.filterMap (fileDigest env sec.questions)
        ++ sec.attached_urls.filterMap (urlDigest env sec.questions) :=
  process_attachments_eq_filterMap env sec

/-! ## Claim C6 -/

/-- An entry whose age at `now = 100000` is exactly 24 hours. -/
def boundaryEntry : DirEntry :=
  { name := "old.pdf", is_dir := false, mtime := 13600, size := 512, io_fails := false }

/-- C6 counterexample: an entry whose age is exactly `retention_hours`
(24 h = 86400 s) is NOT deleted by the sweep, although the claim's
"age ≥ retention_hours" condition holds for it: the code deletes only
entries strictly older than the cutoff (`st_mtime < cutoff_time`). -/
theorem cleanup_age_boundary_cex :
    (100000 : Int) - boundaryEntry.mtime = 24 * 3600 ∧
    cleanup_old_files true [boundaryEntry] 100000 24
      = { deleted_files := 0, errors := 0, total_size_freed := 0 } := by
  constructor
  · norm_num [boundaryEntry]
  · rfl

/-- C6 (amended): in a sweep over an existing store directory, an entry
(sub-directories skipped, per-entry I/O failures counted in `errors`) is
deleted exactly when its age `now - mtime` STRICTLY exceeds
`retention_hours` (in seconds); `deleted_files` counts the deleted entries
and `total_size_freed` sums their sizes.  An entry with age
`retention_hours - ε` (more generally, age ≤ retention) survives and one
with age `retention_hours + ε` (age > retention) is deleted. -/
theorem cleanup_deletes_strictly_older :
    (∀ (entries : List DirEntry) (now retention : Int),
      cleanup_old_files true entries now retention =
        { deleted_files := (entries.filter (shouldDelete now retention)).length,
          errors := (entries.filter (fun e => !e.is_dir && e.io_fails)).length,
          total_size_freed :=
            ((entries.filter (shouldDelete now retention)).map DirEntry.size).sum })
    ∧ (∀ (e : DirEntry) (now retention : Int),
        e.is_dir = false → e.io_fails = false → now - e.mtime ≤ retention * 3600 →
        cleanup_old_files true [e] now retention
          = { deleted_files := 0, errors := 0, total_size_freed := 0 })
    ∧ (∀ (e : DirEntry) (now retention : Int),
        e.is_dir = false → e.io_fails = false → retention * 3600 < now - e.mtime →
        cleanup_old_files true [e] now retention
          = { deleted_files := 1, errors := 0, total_size_freed := e.size }) := by
  have hchar : ∀ (entries : List DirEntry) (now retention : Int),
      cleanup_old_files true entries now retention =
        { deleted_files := (entries.filter (shouldDelete now retention)).length,
          errors := (entries.filter (fun e => !e.is_dir && e.io_fails)).length,
          total_size_freed :=
            ((entries.filter (shouldDelete now retention)).map DirEntry.size).sum } := by
    intro entries now retention
    have hpred : ∀ e : DirEntry,
        (!e.is_dir && !e.io_fails && decide (e.mtime < now - retention * 3600))
          = shouldDelete now retention e := by
      intro e
      unfold shouldDelete
      congr 1
      rw [decide_eq_decide]
      omega
    unfold cleanup_old_files
    rw [if_neg (by simp)]
    rw [foldl_cleanupStep]
    simp only [hpred, Nat.zero_add, zero_add]
  refine ⟨hchar, ?_, ?_⟩
  · intro e now retention hd hio hage
    rw [hchar]
    have hsd : shouldDelete now retention e = false := by
      unfold shouldDelete
      simp only [hd, hio, Bool.not_false, Bool.true_and, decide_eq_false_iff_not, not_lt]
      omega
    simp [hsd, hd, hio]
  · intro e now retention hd hio hage
    rw [hchar]
    have hsd : shouldDelete now retention e = true := by
      unfold shouldDelete
      simp only [hd, hio, Bool.not_false, Bool.true_and, decide_eq_true_eq]
      omega
    simp [hsd, hd, hio]

/-- C6 witness: a 25-hour-old 512-byte file under retention 24 h is
deleted with its size reported freed; a 23-hour-old one survives. -/
theorem cleanup_deletes_strictly_older_witness :
    cleanup_old_files true
        [{ name := "a.pdf", is_dir := false, mtime := 100000 - 25 * 3600, size := 512,
           io_fails := false }] 100000 24
      = { deleted_files := 1, errors := 0, total_size_freed := 512 } ∧
    cleanup_old_files true
        [{ name := "b.pdf", is_dir := false, mtime := 100000 - 23 * 3600, size := 512,
           io_fails := false }] 100000 24
      = { deleted_files := 0, errors := 0, total_size_freed := 0 } := by
  constructor
  · exact cleanup_deletes_strictly_older.2.2
      { name := "a.pdf", is_dir := false, mtime := 100000 - 25 * 3600, size := 512,
        io_fails := false } 100000 24 rfl rfl (by norm_num)
  · exact cleanup_deletes_strictly_older.2.1
      { name := "b.pdf", is_dir := false, mtime := 100000 - 23 * 3600, size := 512,
        io_fails := false } 100000 24 rfl rfl (by norm_num)

/-! ## Claim C1 -/

/-- The status of the outcome the section loop records is `"error"` iff
`_process_section` raised for that section. -/
theorem sectionOutcome_status_error (env : Env) (kvs : String × Section) :
    (sectionOutcome env kvs).2.status = "error" ↔ sectionFails env kvs = true := by
  unfold sectionOutcome sectionFails
  cases h : process_section env kvs.2 with
  | ok r =>
      simp only []
      constructor
      · intro hr
        rcases process_section_ok_status env kvs.2 r h with hs | hs <;>
          rw [hs] at hr <;> exact absurd hr (by decide)
      · intro hf
        exact absurd hf (by decide)
  | error e => simp [errorResponse]

/-- A proposal request with a single blank-input section. -/
def blankRequest : ProposalRequest :=
  { sections := [("intro", blankSection)], model := "gpt-4o-mini" }

/-- The skipped result for `blankSection`. -/
def skippedResponse : SectionResponse :=
  { title := "Intro",
    generated_content := "Keine Eingabe vom Benutzer bereitgestellt.",
    user_input := "",
    status := "skipped" }

/-- C1 counterexample: a batch with one skipped section (a status other
than `"success"`) is still reported with overall status `"success"` —
`partial_success` is produced only when a section raises, so the claimed
"any skipped section yields partial_success" is false on the code. -/
theorem batch_status_ignores_skipped_cex :
    process_request stubEnv blankRequest
      = Except.ok { sections := [("intro", skippedResponse)], status := "success" }
    ∧ skippedResponse.status ≠ "success" := by
  exact ⟨rfl, by decide⟩

/-- C1 (amended): the returned batch status is `"success"` iff no
contained SectionResult has status `"error"` (i.e. iff no section raised).
A section with status `"skipped"` does not affect the overall status; any
section with status `"error"` forces `"partial_success"`. -/
theorem batch_status_success_iff_no_error_section (env : Env) (req : ProposalRequest)
    (resp : ProposalResponse) (h : process_request env req = Except.ok resp) :
    resp.status = "success" ↔ ∀ kv ∈ resp.sections, kv.2.status ≠ "error" := by
  unfold process_request at h
  cases hm : mkLLMService req.model with
  | error e =>
      rw [hm] at h
      exact Except.noConfusion h
  | ok svc =>
      rw [hm, foldl_sectionStep] at h
      cases h
      simp only [List.nil_append]
      by_cases ha : req.sections.any (sectionFails env) = true
      · rw [if_pos ha]
        constructor
        · intro hs
          exact absurd hs (by decide)
        · intro hall
          rcases List.any_eq_true.mp ha with ⟨kvs, hmem, hf⟩
          have herr : (sectionOutcome env kvs).2.status = "error" :=
            (sectionOutcome_status_error env kvs).mpr hf
          exact absurd herr (hall _ (List.mem_map_of_mem _ hmem))
      · rw [if_neg ha]
        constructor
        · intro _ kv hkv
          rcases List.mem_map.mp hkv with ⟨kvs, hmem, rfl⟩
          intro herr
          exact ha (List.any_eq_true.mpr
            ⟨kvs, hmem, (sectionOutcome_status_error env kvs).mp herr⟩)
        · intro _
          rfl

/-- A proposal request with a single ordinary section. -/
def plainRequest : ProposalRequest :=
  { sections := [("intro", plainSection)], model := "gpt-4o-mini" }

/-- The batch result `stubEnv` produces for `plainRequest`. -/
def plainResponse : ProposalResponse :=
  { sections :=
      [("intro",
        { title := "Intro", generated_content := "Text", user_input := "abc",
          status := "success" })],
    status := "success" }

/-- C1 witness: the amended equivalence evaluated on a concrete
one-section batch. -/
theorem batch_status_success_iff_no_error_section_witness :
    plainResponse.status = "success" ↔ ∀ kv ∈ plainResponse.sections, kv.2.status ≠ "error" :=
  batch_status_success_iff_no_error_section stubEnv plainRequest plainResponse rfl

/-! ## Claim C2 -/

/-- C2: an unsupported model id makes the whole call raise the
`ValueError` from `LLMService.__init__` — independently of the
environment and of the submitted sections, so before any section work —
and no (partial) batch result is produced; a supported id passes the
pre-check and every section is processed. -/
theorem model_precheck_atomic :
    (∀ (env : Env) (secs : List (String × Section)) (m : String),
      lookupProvider m = none →
      process_request env { sections := secs, model := m }
        = Except.error (unsupportedModelMessage m))
    ∧ (∀ (env : Env) (secs : List (String × Section)) (m p : String),
      lookupProvider m = some p →
      ∃ resp, process_request env { sections := secs, model := m } = Except.ok resp
        ∧ resp.sections = secs.map (sectionOutcome env)) := by
  constructor
  · intro env secs m hm
    unfold process_request mkLLMService
    rw [hm]
  · intro env secs m p hm
    unfold process_request mkLLMService
    rw [hm]
    refine ⟨_, rfl, ?_⟩
    rw [foldl_sectionStep]
    simp

/-- C2 witness: the id `"o1-preview"` is rejected with the catalog error
and no batch result; the supported `"gpt-5"` yields a full batch result. -/
theorem model_precheck_atomic_witness :
    (process_request stubEnv { sections := [], model := "o1-preview" }
      = Except.error (unsupportedModelMessage "o1-preview"))
    ∧ ∃ resp, process_request stubEnv { sections := [], model := "gpt-5" } = Except.ok resp
        ∧ resp.sections = ([] : List (String × Section)).map (sectionOutcome stubEnv) := by
  constructor
  · exact model_precheck_atomic.1 stubEnv [] "o1-preview" rfl
  · exact model_precheck_atomic.2 stubEnv [] "gpt-5" "openai" rfl

/-! ## Claim C3 -/

/-- C3 counterexample: a skipped section's content is the fixed localized
message `"Keine Eingabe vom Benutzer bereitgestellt."`, not the empty
string claimed by the spec. -/
theorem skipped_content_not_empty_cex :
    process_section stubEnv blankSection
      = Except.ok
          { title := "Intro",
            generated_content := "Keine Eingabe vom Benutzer bereitgestellt.",
            user_input := "", status := "skipped" }
    ∧ ("Keine Eingabe vom Benutzer bereitgestellt." : String) ≠ "" := by
  exact ⟨rfl, by decide⟩

/-- C3 (amended): for every section with empty/whitespace-only user input,
the result has status `"skipped"`, content equal to the fixed localized
"no user input" message (not the empty string), and the user input echoed
back; the result is the same for every environment and every attachment
lists, so attachments are never inspected. -/
theorem skipped_section_spec (env : Env) (sec : Section)
    (h : isBlank sec.user_input = true) :
    process_section env sec
      = Except.ok
          { title := sec.title,
            generated_content := "Keine Eingabe vom Benutzer bereitgestellt.",
            user_input := sec.user_input, status := "skipped" }
    ∧ (∀ (env2 : Env) (files urls : List String),
        process_section env2 { sec with attached_files := files, attached_urls := urls }
          = Except.ok
              { title := sec.title,
                generated_content := "Keine Eingabe vom Benutzer bereitgestellt.",
                user_input := sec.user_input, status := "skipped" }) := by
  constructor
  · unfold process_section
    rw [if_pos h]
  · intro env2 files urls
    have h2 :
        isBlank ({ sec with attached_files := files, attached_urls := urls } : Section).user_input
          = true := h
    unfold process_section
    rw [if_pos h2]

/-- C3 witness: the skipped-section characterization evaluated on a
concrete blank section. -/
theorem skipped_section_spec_witness :
    process_section stubEnv blankSection
      = Except.ok
          { title := blankSection.title,
            generated_content := "Keine Eingabe vom Benutzer bereitgestellt.",
            user_input := blankSection.user_input, status := "skipped" } :=
  (skipped_section_spec stubEnv blankSection (by decide)).1

/-! ## Claim C10 -/

/-- C10: a batch with an empty sections mapping and a supported model id
returns an empty batch result with status `"success"`, for every
environment — so no backend, enrichment or summarization call can
influence (or be needed for) the result. -/
theorem empty_batch_success (env : Env) (m p : String)
    (h : lookupProvider m = some p) :
    process_request env { sections := [], model := m }
      = Except.ok { sections := [], status := "success" } := by
  unfold process_request mkLLMService
  rw [h]
  rfl

/-- C10 witness: the empty batch evaluated with the default model id. -/
theorem empty_batch_success_witness :
    process_request stubEnv { sections := [], model := "gpt-4o-mini" }
      = Except.ok { sections := [], status := "success" } :=
  empty_batch_success stubEnv "gpt-4o-mini" "openai" rfl

/-! ## Claim C5 -/

/-- When the generation backend never raises, `section_generated` never
raises either. -/
theorem section_generated_ok_of_backend_ok (env : Env) (sec : Section)
    (hgen : ∀ msgs, ∃ s, env.genBackend msgs = Except.ok s) :
    ∃ g, section_generated env sec = Except.ok g := by
  unfold section_generated
  by_cases hs : section_attachment_summaries env sec ≠ []
  · rw [if_pos hs]
    unfold generate_section_content_with_attachments
    obtain ⟨s, h⟩ := hgen (build_messages_with_attachments sec.title sec.questions
      sec.user_input sec.best_practice_beispiele (section_attachment_summaries env sec)
      sec.max_section_length)
    rw [h]
    exact ⟨pyStrip s, rfl⟩
  · rw [if_neg hs]
    unfold generate_section_content
    obtain ⟨s, h⟩ := hgen (build_messages sec.title sec.questions sec.user_input
      sec.best_practice_beispiele sec.max_section_length)
    rw [h]
    exact ⟨pyStrip s, rfl⟩

/-- C5: per-item failure isolation in attachment enrichment.  (i) A raising
file read contributes an inline error-marker digest in that item's place,
with all sibling digests unchanged; (ii) a file whose content resolves to
`None` or the empty string is omitted with no digest; (iii)/(iv) the same
for URLs (raising fetch → inline marker; status ≠ success or empty content
→ omitted); (v) attachment failures never abort the section: whenever the
generation backend itself succeeds, the section still generates with
status `"success"`. -/
theorem attachment_failure_isolation :
    (∀ (env : Env) (sec : Section) (fs1 fs2 : List String) (f e : String),
      env.readFile f = FileReadResult.raises e →
      sec.attached_files = fs1 ++ f :: fs2 →
      process_attachments env sec
        = fs1.filterMap (fileDigest env sec.questions)
          ++ ("Fehler beim Verarbeiten der Datei: " ++ e)
            :: (fs2.filterMap (fileDigest env sec.questions)
                ++ sec.attached_urls.filterMap (urlDigest env sec.questions)))
    ∧ (∀ (env : Env) (sec : Section) (fs1 fs2 : List String) (f : String),
      (env.readFile f = FileReadResult.ok none
        ∨ env.readFile f = FileReadResult.ok (some "")) →
      sec.attached_files = fs1 ++ f :: fs2 →
      process_attachments env sec
        = process_attachments env { sec with attached_files := fs1 ++ fs2 })
    ∧ (∀ (env : Env) (sec : Section) (us1 us2 : List String) (u e : String),
      env.fetchUrl u = UrlFetchResult.raises e →
      sec.attached_urls = us1 ++ u :: us2 →
      process_attachments env sec
        = sec.attached_files.filterMap (fileDigest env sec.questions)
          ++ us1.filterMap (urlDigest env sec.questions)
          ++ ("Fehler beim Verarbeiten der URL: " ++ e)
            :: us2.filterMap (urlDigest env sec.questions))
    ∧ (∀ (env : Env) (sec : Section) (us1 us2 : List String) (u : String) (r : UrlResult),
      env.fetchUrl u = UrlFetchResult.ok r →
      (r.status ≠ "success" ∨ r.content = "") →
      sec.attached_urls = us1 ++ u :: us2 →
      process_attachments env sec
        = process_attachments env { sec with attached_urls := us1 ++ us2 })
    ∧ (∀ (env : Env) (sec : Section),
      (∀ msgs, ∃ s, env.genBackend msgs = Except.ok s) →
      isBlank sec.user_input = false →
      ∃ resp, process_section env sec = Except.ok resp ∧ resp.status = "success") := by
  refine ⟨?_, ?_, ?_, ?_, ?_⟩
  · intro env sec fs1 fs2 f e hf hsplit
    have hd : fileDigest env sec.questions f
        = some ("Fehler beim Verarbeiten der Datei: " ++ e) := by
      unfold fileDigest
      rw [hf]
    rw [process_attachments_eq_filterMap, hsplit, List.filterMap_append,
      List.filterMap_cons, hd]
    simp [List.append_assoc]
  · intro env sec fs1 fs2 f hf hsplit
    have hd : fileDigest env sec.questions f = none := by
      unfold fileDigest
      rcases hf with hf | hf <;> rw [hf]
      simp
    rw [process_attachments_eq_filterMap, process_attachments_eq_filterMap, hsplit]
    simp [List.filterMap_append, List.filterMap_cons, hd]
  · intro env sec us1 us2 u e hu hsplit
    have hd : urlDigest env sec.questions u
        = some ("Fehler beim Verarbeiten der URL: " ++ e) := by
      unfold urlDigest
      rw [hu]
    rw [process_attachments_eq_filterMap, hsplit, List.filterMap_append,
      List.filterMap_cons, hd]
    simp [List.append_assoc]
  · intro env sec us1 us2 u r hu hbad hsplit
    have hd : urlDigest env sec.questions u = none := by
      unfold urlDigest
      rw [hu]
      rcases hbad with hb | hb <;> simp [hb]
    rw [process_attachments_eq_filterMap, process_attachments_eq_filterMap, hsplit]
    simp [List.filterMap_append, List.filterMap_cons, hd]
  · intro env sec hgen hblank
    obtain ⟨g, hg⟩ := section_generated_ok_of_backend_ok env sec hgen
    refine
      ⟨{ title := sec.title, generated_content := g, user_input := sec.user_input,
           status := "success" },
       ?_, rfl⟩
    unfold process_section
    rw [if_neg (by rw [hblank]; exact Bool.false_ne_true), hg]

/-- An environment with one raising file id, one empty file id, one
raising URL and one failed-status URL. -/
def faultyEnv : Env :=
  { readFile := fun fid =>
      if fid = "bad" then FileReadResult.raises "kaputt"
      else if fid = "empty" then FileReadResult.ok none
      else FileReadResult.ok (some ("Inhalt von " ++ fid)),
    fetchUrl := fun url =>
      if url = "https://bad.example" then UrlFetchResult.raises "timeout"
      else if url = "https://empty.example" then
        UrlFetchResult.ok { status := "error", content := "" }
      else UrlFetchResult.ok { status := "success", content := "Seite" },
    sumBackend := fun _ => Except.ok "Z",
    genBackend := fun _ => Except.ok "G" }

/-- A section whose middle file attachment raises on read. -/
def fileErrSection : Section :=
  { title := "T", questions := "Q", best_practice_beispiele := [],
    user_input := "hallo", max_section_length := 0,
    attached_files := ["good1", "bad", "good2"],
    attached_urls := ["https://ok.example"] }

/-- A section whose middle file attachment resolves to no content. -/
def fileEmptySection : Section :=
  { title := "T", questions := "Q", best_practice_beispiele := [],
    user_input := "hallo", max_section_length := 0,
    attached_files := ["good1", "empty", "good2"],
    attached_urls := [] }

/-- A section whose middle URL attachment raises on fetch. -/
def urlErrSection : Section :=
  { title := "T", questions := "Q", best_practice_beispiele := [],
    user_input := "hallo", max_section_length := 0,
    attached_files := [],
    attached_urls := ["https://ok.example", "https://bad.example", "https://ok2.example"] }

/-- A section whose middle URL attachment fetches with a failed status. -/
def urlEmptySection : Section :=
  { title := "T", questions := "Q", best_practice_beispiele := [],
    user_input := "hallo", max_section_length := 0,
    attached_files := [],
    attached_urls := ["https://ok.example", "https://empty.example"] }

/-- C5 witness: every isolation case evaluated on concrete sections in
`faultyEnv`. -/
theorem attachment_failure_isolation_witness :
    (process_attachments faultyEnv fileErrSection
      = ["good1"].filterMap (fileDigest faultyEnv fileErrSection.questions)
        ++ ("Fehler beim Verarbeiten der Datei: " ++ "kaputt")
          :: (["good2"].filterMap (fileDigest faultyEnv fileErrSection.questions)
              ++ fileErrSection.attached_urls.filterMap
                  (urlDigest faultyEnv fileErrSection.questions)))
    ∧ (process_attachments faultyEnv fileEmptySection
      = process_attachments faultyEnv
          { fileEmptySection with attached_files := ["good1"] ++ ["good2"] })
    ∧ (process_attachments faultyEnv urlErrSection
      = urlErrSection.attached_files.filterMap (fileDigest faultyEnv urlErrSection.questions)
        ++ ["https://ok.example"].filterMap (urlDigest faultyEnv urlErrSection.questions)
        ++ ("Fehler beim Verarbeiten der URL: " ++ "timeout")
          :: ["https://ok2.example"].filterMap (urlDigest faultyEnv urlErrSection.questions))
    ∧ (process_attachments faultyEnv urlEmptySection
      = process_attachments faultyEnv
          { urlEmptySection with attached_urls := ["https://ok.example"] ++ [] })
    ∧ (∃ resp, process_section faultyEnv fileErrSection = Except.ok resp
        ∧ resp.status = "success") := by
  refine ⟨?_, ?_, ?_, ?_, ?_⟩
  · exact attachment_failure_isolation.1 faultyEnv fileErrSection
      ["good1"] ["good2"] "bad" "kaputt" rfl rfl
  · exact attachment_failure_isolation.2.1 faultyEnv fileEmptySection
      ["good1"] ["good2"] "empty" (Or.inl rfl) rfl
  · exact attachment_failure_isolation.2.2.1 faultyEnv urlErrSection
      ["https://ok.example"] ["https://ok2.example"] "https://bad.example" "timeout" rfl rfl
  · exact attachment_failure_isolation.2.2.2.1 faultyEnv urlEmptySection
      ["https://ok.example"] [] "https://empty.example"
      { status := "error", content := "" } rfl (Or.inl (by decide)) rfl
  · exact attachment_failure_isolation.2.2.2.2 faultyEnv fileErrSection
      (fun msgs => ⟨"G", rfl⟩) (by decide)

/-! ## Claim C7 -/

/-- C7: `summarize_for_questions` never raises — for every backend
behavior (including a missing-credential raise on lazy initialization,
which is one possible `.error` of the backend) the result is a returned
string; and whenever the backend invocation raises, the returned string is
the diagnostic error message. -/
theorem summarize_never_raises :
    (∀ (backend : Backend) (content questions content_type : String)
        (max_summary_length : Int),
      ∃ s, summarize_for_questions backend content questions content_type max_summary_length
        = Except.ok s)
    ∧ (∀ (backend : Backend) (content questions content_type : String)
        (max_summary_length : Int) (e : String),
      isBlank content = false →
      backend (build_summarization_messages (truncate_content content) questions
          content_type max_summary_length) = Except.error e →
      summarize_for_questions backend content questions content_type max_summary_length
        = Except.ok ("Fehler bei der Zusammenfassung: " ++ e)) := by
  constructor
  · intro backend c q t m
    unfold summarize_for_questions
    cases h : summarize_try_block backend c q t m with
    | ok s => exact ⟨s, rfl⟩
    | error e => exact ⟨"Fehler bei der Zusammenfassung: " ++ e, rfl⟩
  · intro backend c q t m e hblank herr
    unfold summarize_for_questions summarize_try_block
    rw [if_neg (by rw [hblank]; exact Bool.false_ne_true), herr]

/-- A backend whose every invocation raises the missing-credential
`ValueError` of the lazy `llm` property. -/
def keyErrBackend : Backend :=
  fun _ => Except.error "OPENAI_API_KEY environment variable is required"

/-- C7 witness: with a backend that always raises the missing-credential
error, summarization still returns a diagnostic string. -/
theorem summarize_never_raises_witness :
    summarize_for_questions keyErrBackend "Inhalt" "Q" "pdf" 1000
      = Except.ok ("Fehler bei der Zusammenfassung: "
          ++ "OPENAI_API_KEY environment variable is required") :=
  summarize_never_raises.2 keyErrBackend "Inhalt" "Q" "pdf" 1000
    "OPENAI_API_KEY environment variable is required" (by decide) rfl

/-! ## Claim C8 -/

/-- How `summarize_for_questions` consumes one backend invocation result:
strip the response, or turn a raised error into the diagnostic string. -/
def handleBackendResult : Except String String → Except String String :=
  fun r =>
    match r with
    | Except.ok response => Except.ok (pyStrip response)
    | Except.error e => Except.ok ("Fehler bei der Zusammenfassung: " ++ e)

/-- C8: the cap is the fixed constant 8000; blank content returns the
"no usable content" sentinel for EVERY backend (so without invoking it);
content longer than the cap reaches the backend as exactly the first 8000
characters plus the ellipsis marker `"..."`; content at or under the cap
is passed unchanged. -/
theorem summarize_truncation_cap :
    (max_content_length = 8000)
    ∧ (∀ (backend : Backend) (content questions content_type : String) (m : Int),
      isBlank content = true →
      summarize_for_questions backend content questions content_type m
        = Except.ok "Kein verwertbarer Inhalt in der Anlage gefunden.")
    ∧ (∀ (backend : Backend) (content questions content_type : String) (m : Int),
      isBlank content = false → max_content_length < content.length →
      summarize_for_questions backend content questions content_type m
        = handleBackendResult (backend (build_summarization_messages
            (content.take max_content_length ++ "...") questions content_type m)))
    ∧ (∀ (backend : Backend) (content questions content_type : String) (m : Int),
      isBlank content = false → content.length ≤ max_content_length →
      summarize_for_questions backend content questions content_type m
        = handleBackendResult (backend (build_summarization_messages
            content questions content_type m))) := by
  refine ⟨rfl, ?_, ?_, ?_⟩
  · intro backend c q t m hblank
    unfold summarize_for_questions summarize_try_block
    rw [if_pos hblank]
  · intro backend c q t m hblank hlen
    unfold summarize_for_questions summarize_try_block truncate_content
    rw [if_neg (by rw [hblank]; exact Bool.false_ne_true), if_pos hlen]
    cases hb : backend (build_summarization_messages (c.take max_content_length ++ "...")
        q t m) <;> simp [handleBackendResult, hb]
  · intro backend c q t m hblank hlen
    unfold summarize_for_questions summarize_try_block truncate_content
    rw [if_neg (by rw [hblank]; exact Bool.false_ne_true), if_neg (not_lt.mpr hlen)]
    cases hb : backend (build_summarization_messages c q t m) <;>
      simp [handleBackendResult, hb]

/-- A string strictly longer than the 8000-character cap. -/
def longContent : String := String.mk (List.replicate 8001 'a')

/-- A backend that always answers with a fixed summary. -/
def okBackend : Backend := fun _ => Except.ok "S"

/-- C8 witness: the three cases evaluated concretely — blank content,
8001-character content, short content. -/
theorem summarize_truncation_cap_witness :
    (summarize_for_questions okBackend "  " "Q" "pdf" 1000
      = Except.ok "Kein verwertbarer Inhalt in der Anlage gefunden.")
    ∧ (summarize_for_questions okBackend longContent "Q" "pdf" 1000
      = handleBackendResult (okBackend (build_summarization_messages
          (longContent.take max_content_length ++ "...") "Q" "pdf" 1000)))
    ∧ (summarize_for_questions okBackend "kurz" "Q" "pdf" 1000
      = handleBackendResult (okBackend (build_summarization_messages
          "kurz" "Q" "pdf" 1000))) := by
  refine ⟨?_, ?_, ?_⟩
  · exact summarize_truncation_cap.2.1 okBackend "  " "Q" "pdf" 1000 (by decide)
  · refine summarize_truncation_cap.2.2.1 okBackend longContent "Q" "pdf" 1000 ?_ ?_
    · decide
    · show max_content_length < longContent.length
      have h1 : longContent.length = (List.replicate 8001 'a').length := rfl
      rw [h1, List.length_replicate]
      decide
  · exact summarize_truncation_cap.2.2.2 okBackend "kurz" "Q" "pdf" 1000
      (by decide) (by decide)

/-! ## Claim C9 -/

/-- C9: the maintenance put-configuration endpoint rejects a supplied
`retention_hours < 1` and a supplied `interval < 0.1` with the respective
validation error before any configuration is produced; with both supplied
values in bounds it returns the updated configuration, and an omitted
interval leaves the current interval unchanged. -/
theorem maintenance_config_validation :
    (∀ (st : MaintenanceConfig) (rv : Int) (i : Option Int),
      rv < 1 →
      update_maintenance_config st (some rv) i
        = Except.error "Retention hours must be at least 1")
    ∧ (∀ (st : MaintenanceConfig) (r : Option Int) (iv : Int),
      (∀ rv, r = some rv → 1 ≤ rv) →
      (iv : ℚ) < 1 / 10 →
      update_maintenance_config st r (some iv)
        = Except.error "Cleanup interval must be at least 0.1 hours (6 minutes)")
    ∧ (∀ (st : MaintenanceConfig) (rv iv : Int),
      1 ≤ rv → (1 / 10 : ℚ) ≤ (iv : ℚ) →
      update_maintenance_config st (some rv) (some iv)
        = Except.ok { file_retention_hours := rv, cleanup_interval_hours := iv })
    ∧ (∀ (st : MaintenanceConfig) (rv : Int),
      1 ≤ rv →
      update_maintenance_config st (some rv) none
        = Except.ok
            { file_retention_hours := rv,
              cleanup_interval_hours := st.cleanup_interval_hours }) := by
  refine ⟨?_, ?_, ?_, ?_⟩
  · intro st rv i h
    unfold update_maintenance_config
    rw [if_pos (show retentionOutOfBounds (some rv) = true by
      simp [retentionOutOfBounds, h])]
  · intro st r iv hr hi
    unfold update_maintenance_config
    have hrb : retentionOutOfBounds r = false := by
      cases r with
      | none => rfl
      | some rv =>
          have := hr rv rfl
          simp [retentionOutOfBounds]
          omega
    rw [if_neg (by rw [hrb]; exact Bool.false_ne_true),
      if_pos (show intervalOutOfBounds (some iv) = true by
        simp only [intervalOutOfBounds, decide_eq_true_eq]
        exact hi)]
  · intro st rv iv hr hi
    unfold update_maintenance_config
    have hrb : retentionOutOfBounds (some rv) = false := by
      simp [retentionOutOfBounds]
      omega
    have hib : intervalOutOfBounds (some iv) = false := by
      simp only [intervalOutOfBounds, decide_eq_false_iff_not, not_lt]
      exact hi
    rw [if_neg (by rw [hrb]; exact Bool.false_ne_true),
      if_neg (by rw [hib]; exact Bool.false_ne_true)]
    have hrne : ¬rv = 0 := by omega
    simp [configure_retention, pyOrInt, hrne]
  · intro st rv hr
    unfold update_maintenance_config
    have hrb : retentionOutOfBounds (some rv) = false := by
      simp [retentionOutOfBounds]
      omega
    rw [if_neg (by rw [hrb]; exact Bool.false_ne_true)]
    have hrne : ¬rv = 0 := by omega
    simp [intervalOutOfBounds, configure_retention, pyOrInt, hrne]

/-- C9 witness: the four cases evaluated on the initial configuration
(retention 24 h, interval 1 h). -/
theorem maintenance_config_validation_witness :
    (update_maintenance_config
        { file_retention_hours := 24, cleanup_interval_hours := 1 } (some 0) none
      = Except.error "Retention hours must be at least 1")
    ∧ (update_maintenance_config
        { file_retention_hours := 24, cleanup_interval_hours := 1 } (some 48) (some 0)
      = Except.error "Cleanup interval must be at least 0.1 hours (6 minutes)")
    ∧ (update_maintenance_config
        { file_retention_hours := 24, cleanup_interval_hours := 1 } (some 48) (some 2)
      = Except.ok { file_retention_hours := 48, cleanup_interval_hours := 2 })
    ∧ (update_maintenance_config
        { file_retention_hours := 24, cleanup_interval_hours := 1 } (some 48) none
      = Except.ok { file_retention_hours := 48, cleanup_interval_hours := 1 }) := by
  refine ⟨?_, ?_, ?_, ?_⟩
  · exact maintenance_config_validation.1 _ 0 none (by decide)
  · refine maintenance_config_validation.2.1 _ (some 48) 0 ?_ (by norm_num)
    intro rv h
    injection h with h2
    omega
  · exact maintenance_config_validation.2.2.1 _ 48 2 (by decide) (by norm_num)
  · exact maintenance_config_validation.2.2.2 _ 48 (by decide)

end Netwiss
